import Mathlib

/-!
Shallow embedding of the `mb_oil_finder` Python package (VIN decoder and oil
finder for Mercedes-Benz vehicles), together with theorems settling the
specification claims.  Python strings that are sliced or iterated (the VIN and
its fields) are modelled as `List Char`; fixed reference-table keys and error
messages stay as `String`.  Python dicts used as read-only tables become
association lists looked up with `List.lookup` (keys are unique, so the
semantics agree); exceptions become an error sum via `Except`.
-/

namespace MBOilFinder

/-- models.py: `EngineData` dataclass.  `displacement` is a Python float whose
only occurring values (2.1, 3.5) are exact decimals; it is modelled as `Rat`
(no arithmetic is ever performed on it). -/
structure EngineData where
  code : String
  type : String
  family : String
  description : String
  displacement : Rat
  cylinders : Nat
  fuel_type : String
deriving DecidableEq

/-- models.py: `OilSpecification` dataclass. -/
structure OilSpecification where
  mb_approval : String
  viscosity : String
  type : String
  description : String
deriving DecidableEq

/-- models.py: `OilRecommendation` dataclass. -/
structure OilRecommendation where
  primary : OilSpecification
  alternatives : List OilSpecification
deriving DecidableEq

/-- models.py: `VINData` dataclass; string-valued fields are `List Char`
because they are produced by slicing the VIN. -/
structure VINData where
  vin : List Char
  manufacturer : List Char
  model_series : List Char
  engine_code : List Char
  model_details : List Char
  model_year : List Char
  plant_code : List Char
  serial_number : List Char
  engine : Option EngineData := none
deriving DecidableEq

/-- exceptions.py: the concrete exception classes raised by the package, each
carrying its message.  `invalidVIN` = `InvalidVINError`, `unsupportedVehicle` =
`UnsupportedVehicleError`, `noOilRecommendation` = `NoOilRecommendationError`,
`engineDataError` = `EngineDataError`.  Note that exceptions.py defines no
separate specification-not-found class; the oil finder reuses
`NoOilRecommendationError` for every failure it raises. -/
inductive MBError where
  | invalidVIN (msg : String)
  | unsupportedVehicle (msg : String)
  | noOilRecommendation (msg : String)
  | engineDataError (msg : String)
deriving DecidableEq

/-- vin_decoder.py: `VINDecoder.MB_MANUFACTURER_CODES` (a Python set of
3-character strings, used only for membership tests). -/
def MB_MANUFACTURER_CODES : List (List Char) :=
  ["WDD".toList, "WDB".toList, "WDC".toList, "WMX".toList, "4JG".toList]

/-- vin_decoder.py: the `ENGINE_CODES` entry for key "42". -/
def engine_42 : EngineData :=
  { code := "42", type := "OM651", family := "Diesel",
    description := "2.1L 4-cylinder diesel engine",
    displacement := 21/10, cylinders := 4, fuel_type := "Diesel" }

/-- vin_decoder.py: the `ENGINE_CODES` entry for key "64". -/
def engine_64 : EngineData :=
  { code := "64", type := "M276", family := "Gasoline",
    description := "3.5L V6 gasoline engine",
    displacement := 35/10, cylinders := 6, fuel_type := "Gasoline" }

/-- vin_decoder.py: `VINDecoder.ENGINE_CODES` table. -/
def ENGINE_CODES : List (List Char × EngineData) :=
  [("42".toList, engine_42), ("64".toList, engine_64)]

/-- Python slice `s[a:b]` on a string of characters (for `a ≤ b`, the only
form the decoder uses). -/
def pySlice (s : List Char) (a b : Nat) : List Char :=
  (s.drop a).take (b - a)

/-- vin_decoder.py: `VINDecoder.validate_vin`.  On string inputs Python's
`not vin or not isinstance(vin, str)` guard is exactly the emptiness test;
`any(c in "IOQ" for c in vin)` is the forbidden-character scan; the
manufacturer test is `vin[:3] not in MB_MANUFACTURER_CODES`. -/
def validate_vin (vin : List Char) : Except MBError Bool :=
  if vin.isEmpty then
    .error (.invalidVIN "VIN must be a non-empty string")
  else if vin.length ≠ 17 then
    .error (.invalidVIN "VIN must be 17 characters long")
  else if vin.any (fun c => c == 'I' || c == 'O' || c == 'Q') then
    .error (.invalidVIN "VIN contains invalid characters: I, O, or Q are not allowed")
  else if vin.take 3 ∉ MB_MANUFACTURER_CODES then
    .error (.unsupportedVehicle ("Not a recognized Mercedes-Benz VIN: " ++ String.mk (vin.take 3)))
  else
    .ok true

/-- vin_decoder.py: `VINDecoder._get_engine_data` — the permissive lookup
`ENGINE_CODES.get(engine_code)`; returns `none` rather than failing. -/
def get_engine_data (engine_code : List Char) : Option EngineData :=
  List.lookup engine_code ENGINE_CODES

/-- vin_decoder.py: `VINDecoder.decode_vin`.  Validates, slices per
`VIN_STRUCTURE` ((0,3), (3,6), (6,8), (8,9), (9,10), (10,11), (11,17)), and
resolves the engine permissively. -/
def decode_vin (vin : List Char) : Except MBError VINData :=
  match validate_vin vin with
  | .error e => .error e
  | .ok _ =>
    .ok { vin := vin,
          manufacturer := pySlice vin 0 3,
          model_series := pySlice vin 3 6,
          engine_code := pySlice vin 6 8,
          model_details := pySlice vin 8 9,
          model_year := pySlice vin 9 10,
          plant_code := pySlice vin 10 11,
          serial_number := pySlice vin 11 17,
          engine := get_engine_data (pySlice vin 6 8) }

/-- Modelled from the spec: the repository's `VINDecoder` class has no strict
standalone engine lookup (only the permissive `_get_engine_data`; the strict
operation appears solely in its callers — test_oil_finder.py calls
`get_engine_info` and expects an engine-not-found failure for unmapped codes).
Spec §4.1 defines `getEngineInfo(engineCode)` as a direct lookup in the
engine metadata table that fails with an "engine not found" condition when
the code is absent.  The failure is modelled with the repository's
`EngineDataError` exception class (exceptions.py: "Exception raised for
engine data errors"). -/
def get_engine_info (engine_code : List Char) : Except MBError EngineData :=
  match List.lookup engine_code ENGINE_CODES with
  | some e => .ok e
  | none => .error (.engineDataError ("Engine not found: " ++ String.mk engine_code))

/-- oil_finder.py: the shape of the `{"primary": ..., "alternatives": [...]}`
policy dicts stored in `ENGINE_OIL_MAPPING`. -/
structure OilPolicy where
  primary : String
  alternatives : List String
deriving DecidableEq

/-- oil_finder.py: the `OIL_SPECIFICATIONS` entry for key "229.1". -/
def spec_229_1 : OilSpecification :=
  { mb_approval := "229.1", viscosity := "10W-40", type := "Semi-synthetic",
    description := "Basic specification for gasoline and diesel engines" }

/-- oil_finder.py: the `OIL_SPECIFICATIONS` entry for key "229.3". -/
def spec_229_3 : OilSpecification :=
  { mb_approval := "229.3", viscosity := "5W-40", type := "Synthetic",
    description := "High-performance specification for gasoline and diesel engines" }

/-- oil_finder.py: the `OIL_SPECIFICATIONS` entry for key "229.5". -/
def spec_229_5 : OilSpecification :=
  { mb_approval := "229.5", viscosity := "5W-30", type := "Synthetic",
    description := "Advanced specification for extended drain intervals" }

/-- oil_finder.py: the `OIL_SPECIFICATIONS` entry for key "229.51". -/
def spec_229_51 : OilSpecification :=
  { mb_approval := "229.51", viscosity := "5W-30", type := "Synthetic",
    description := "Low SAPS oil for diesel engines with particulate filters" }

/-- oil_finder.py: `OilFinder.OIL_SPECIFICATIONS` table. -/
def OIL_SPECIFICATIONS : List (String × OilSpecification) :=
  [("229.1", spec_229_1), ("229.3", spec_229_3),
   ("229.5", spec_229_5), ("229.51", spec_229_51)]

/-- oil_finder.py: the `ENGINE_OIL_MAPPING` policy for "OM651". -/
def om651_policy : OilPolicy :=
  { primary := "229.51", alternatives := ["229.5", "229.3"] }

/-- oil_finder.py: the `ENGINE_OIL_MAPPING` policy for "M276". -/
def m276_policy : OilPolicy :=
  { primary := "229.5", alternatives := ["229.3"] }

/-- oil_finder.py: `OilFinder.ENGINE_OIL_MAPPING` table. -/
def ENGINE_OIL_MAPPING : List (String × OilPolicy) :=
  [("OM651", om651_policy), ("M276", m276_policy)]

/-- oil_finder.py: the body of `OilFinder.find_oil_by_engine`, with the two
class-level tables it reads (`self.OIL_SPECIFICATIONS`,
`self.ENGINE_OIL_MAPPING`) passed explicitly.  Python's `not engine_data or
not engine_data.type` guard is the `none`-or-empty-`type` test (dataclass
instances are always truthy, so `not engine_data` is exactly `None`); a
present policy dict and a present specification dataclass are always truthy,
so the later `if not ...` guards are exactly the `None` tests of `.get`.  The
alternatives loop appends each alternative's specification when (and only
when) its approval code resolves. -/
def find_oil_by_engine_core (specs : List (String × OilSpecification))
    (mapping : List (String × OilPolicy)) (engine_data : Option EngineData) :
    Except MBError OilRecommendation :=
  match engine_data with
  | none => .error (.noOilRecommendation "Invalid engine data")
  | some e =>
    if e.type = "" then
      .error (.noOilRecommendation "Invalid engine data")
    else
      match List.lookup e.type mapping with
      | none => .error (.noOilRecommendation ("No oil recommendation for engine type: " ++ e.type))
      | some policy =>
        match List.lookup policy.primary specs with
        | none =>
          .error (.noOilRecommendation ("Primary oil specification not found: " ++ policy.primary))
        | some primary_spec =>
          .ok { primary := primary_spec,
                alternatives := policy.alternatives.filterMap (fun c => List.lookup c specs) }

/-- oil_finder.py: `OilFinder.find_oil_by_engine` on the concrete class
tables. -/
def find_oil_by_engine (engine_data : Option EngineData) : Except MBError OilRecommendation :=
  find_oil_by_engine_core OIL_SPECIFICATIONS ENGINE_OIL_MAPPING engine_data

/-- oil_finder.py: `OilFinder.find_oil_by_vin`. -/
def find_oil_by_vin (vin_data : Option VINData) : Except MBError OilRecommendation :=
  match vin_data with
  | none => .error (.noOilRecommendation "VIN data does not contain engine information")
  | some v =>
    match v.engine with
    | none => .error (.noOilRecommendation "VIN data does not contain engine information")
    | some e => find_oil_by_engine (some e)

/-- The record produced by decoding the sample VIN "WDD2050421A123456"
(slices per `VIN_STRUCTURE`; engine code "04" has no table entry). -/
def rec_sample : VINData :=
  { vin := "WDD2050421A123456".toList,
    manufacturer := "WDD".toList,
    model_series := "205".toList,
    engine_code := "04".toList,
    model_details := "2".toList,
    model_year := "1".toList,
    plant_code := "A".toList,
    serial_number := "123456".toList,
    engine := none }

/-- The recommendation computed for an engine of type "OM651". -/
def rec_om651 : OilRecommendation :=
  { primary := spec_229_51, alternatives := [spec_229_5, spec_229_3] }

/-! Helper lemmas. -/

lemma concat17 (s : List Char) (h : s.length = 17) :
    pySlice s 0 3 ++ pySlice s 3 6 ++ pySlice s 6 8 ++ pySlice s 8 9 ++
      pySlice s 9 10 ++ pySlice s 10 11 ++ pySlice s 11 17 = s := by
  have e10 : (s.drop 10).take 1 ++ (s.drop 11).take 6 = (s.drop 10).take 7 := by
    rw [show s.drop 11 = (s.drop 10).drop 1 from by rw [List.drop_drop], ← List.take_add]
  have e9 : (s.drop 9).take 1 ++ (s.drop 10).take 7 = (s.drop 9).take 8 := by
    rw [show s.drop 10 = (s.drop 9).drop 1 from by rw [List.drop_drop], ← List.take_add]
  have e8 : (s.drop 8).take 1 ++ (s.drop 9).take 8 = (s.drop 8).take 9 := by
    rw [show s.drop 9 = (s.drop 8).drop 1 from by rw [List.drop_drop], ← List.take_add]
  have e6 : (s.drop 6).take 2 ++ (s.drop 8).take 9 = (s.drop 6).take 11 := by
    rw [show s.drop 8 = (s.drop 6).drop 2 from by rw [List.drop_drop], ← List.take_add]
  have e3 : (s.drop 3).take 3 ++ (s.drop 6).take 11 = (s.drop 3).take 14 := by
    rw [show s.drop 6 = (s.drop 3).drop 3 from by rw [List.drop_drop], ← List.take_add]
  have e0 : s.take 3 ++ (s.drop 3).take 14 = s.take 17 := by
    rw [← List.take_add]
  simp only [pySlice, List.drop_zero]
  norm_num
  rw [e10, e9, e8, e6, e3, e0, ← h, List.take_length]

lemma validate_ok_inv (vin : List Char) (b : Bool) (h : validate_vin vin = .ok b) :
    vin.length = 17 ∧ vin.any (fun c => c == 'I' || c == 'O' || c == 'Q') = false ∧
      vin.take 3 ∈ MB_MANUFACTURER_CODES := by
  unfold validate_vin at h
  split_ifs at h with h1 h2 h3 h4
  · simp at h2
    refine ⟨h2, ?_, ?_⟩
    · simpa using h3
    · simpa using h4

lemma decode_ok_inv (vin : List Char) (r : VINData) (h : decode_vin vin = .ok r) :
    validate_vin vin = .ok true ∧
      r = { vin := vin,
            manufacturer := pySlice vin 0 3,
            model_series := pySlice vin 3 6,
            engine_code := pySlice vin 6 8,
            model_details := pySlice vin 8 9,
            model_year := pySlice vin 9 10,
            plant_code := pySlice vin 10 11,
            serial_number := pySlice vin 11 17,
            engine := get_engine_data (pySlice vin 6 8) } := by
  unfold decode_vin at h
  cases hv : validate_vin vin with
  | error e => rw [hv] at h; simp at h
  | ok b =>
    rw [hv] at h
    have hb : b = true := by
      unfold validate_vin at hv
      split_ifs at hv
      simpa using hv.symm
    subst hb
    simp only [Except.ok.injEq] at h
    exact ⟨rfl, h.symm⟩

lemma lookup_mapping_eq (t : String) :
    List.lookup t ENGINE_OIL_MAPPING =
      if t = "OM651" then some om651_policy
      else if t = "M276" then some m276_policy
      else none := by
  by_cases h1 : t = "OM651"
  · simp [ENGINE_OIL_MAPPING, List.lookup, h1]
  · have b1 : (t == "OM651") = false := beq_eq_false_iff_ne.mpr h1
    by_cases h2 : t = "M276"
    · simp [ENGINE_OIL_MAPPING, List.lookup, h1, h2]
    · have b2 : (t == "M276") = false := beq_eq_false_iff_ne.mpr h2
      simp [ENGINE_OIL_MAPPING, List.lookup, h1, h2, b1, b2]

/-! Claim theorems. -/

/-- C1 (counterexample): when an engine type is mapped in the policy table but
the policy's primary approval code is absent from the specification table,
`find_oil_by_engine` fails with the SAME exception class
(`NoOilRecommendationError`) that the unmapped-engine-type case raises — not
with a distinct specification-not-found error kind, which the code does not
define.  Concretely, with an empty specification table and a policy table
mapping "OM999" to primary "229.99", the missing-primary failure and the
unmapped-type failure are both `noOilRecommendation` errors. -/
theorem claim_C1_counterexample :
    find_oil_by_engine_core [] [("OM999", { primary := "229.99", alternatives := [] })]
        (some { code := "00", type := "OM999", family := "Diesel", description := "",
                displacement := 0, cylinders := 0, fuel_type := "Diesel" }) =
      .error (.noOilRecommendation "Primary oil specification not found: 229.99") ∧
    find_oil_by_engine_core [] [("OM999", { primary := "229.99", alternatives := [] })]
        (some { code := "00", type := "OMX", family := "Diesel", description := "",
                displacement := 0, cylinders := 0, fuel_type := "Diesel" }) =
      .error (.noOilRecommendation "No oil recommendation for engine type: OMX") :=
  ⟨rfl, rfl⟩

/-- C1 (amended): for every metadata whose type is mapped to a policy whose
primary approval code is absent from the specification table,
`find_oil_by_engine` fails — it never silently omits the primary — but the
failure is a `NoOilRecommendationError` with message "Primary oil
specification not found: <code>", the same exception class used when the
engine type has no policy (the message text, not the class, distinguishes the
two). -/
theorem claim_C1_amended (specs : List (String × OilSpecification))
    (mapping : List (String × OilPolicy)) (e : EngineData) (policy : OilPolicy)
    (hty : e.type ≠ "")
    (hm : List.lookup e.type mapping = some policy)
    (hp : List.lookup policy.primary specs = none) :
    find_oil_by_engine_core specs mapping (some e) =
      .error (.noOilRecommendation ("Primary oil specification not found: " ++ policy.primary)) := by
  simp [find_oil_by_engine_core, hty, hm, hp]

theorem claim_C1_amended_witness :
    find_oil_by_engine_core [] [("OM999", { primary := "229.99", alternatives := [] })]
        (some { code := "00", type := "OM999", family := "Diesel", description := "",
                displacement := 0, cylinders := 0, fuel_type := "Diesel" }) =
      .error (.noOilRecommendation ("Primary oil specification not found: " ++ "229.99")) :=
  claim_C1_amended [] [("OM999", { primary := "229.99", alternatives := [] })]
    { code := "00", type := "OM999", family := "Diesel", description := "",
      displacement := 0, cylinders := 0, fuel_type := "Diesel" }
    { primary := "229.99", alternatives := [] } (by decide) rfl rfl

/-- C2: the strict standalone engine lookup `get_engine_info` returns the
table's metadata for every mapped engine code and fails with an
engine-not-found `EngineDataError` for every absent code, while the
permissive lookup `_get_engine_data` embedded in decode returns `none` for
the same absent code instead of failing. -/
theorem claim_C2_strict_lookup (code : List Char) :
    (∀ e, List.lookup code ENGINE_CODES = some e → get_engine_info code = .ok e) ∧
    (List.lookup code ENGINE_CODES = none →
      get_engine_info code = .error (.engineDataError ("Engine not found: " ++ String.mk code)) ∧
      get_engine_data code = none) := by
  constructor
  · intro e he
    simp [get_engine_info, he]
  · intro hn
    exact ⟨by simp [get_engine_info, hn], hn⟩

theorem claim_C2_strict_lookup_witness :
    get_engine_info ("42".toList) = .ok engine_42 ∧
    get_engine_info ("99".toList) =
      .error (.engineDataError ("Engine not found: " ++ String.mk ("99".toList))) ∧
    get_engine_data ("99".toList) = none :=
  ⟨(claim_C2_strict_lookup ("42".toList)).1 engine_42 rfl,
   ((claim_C2_strict_lookup ("99".toList)).2 rfl).1,
   ((claim_C2_strict_lookup ("99".toList)).2 rfl).2⟩

/-- C3: whenever `decode_vin` succeeds, the seven positional fields of the
returned record are the slices at positions 0-3, 3-6, 6-8, 8-9, 9-10, 10-11,
11-17 of the input, and their concatenation in field order reproduces the
input VIN exactly. -/
theorem claim_C3_round_trip (vin : List Char) (r : VINData) (h : decode_vin vin = .ok r) :
    (r.manufacturer = pySlice vin 0 3 ∧ r.model_series = pySlice vin 3 6 ∧
     r.engine_code = pySlice vin 6 8 ∧ r.model_details = pySlice vin 8 9 ∧
     r.model_year = pySlice vin 9 10 ∧ r.plant_code = pySlice vin 10 11 ∧
     r.serial_number = pySlice vin 11 17) ∧
    r.manufacturer ++ r.model_series ++ r.engine_code ++ r.model_details ++
      r.model_year ++ r.plant_code ++ r.serial_number = vin := by
  obtain ⟨hv, hr⟩ := decode_ok_inv vin r h
  have hlen : vin.length = 17 := (validate_ok_inv vin true hv).1
  subst hr
  exact ⟨⟨rfl, rfl, rfl, rfl, rfl, rfl, rfl⟩, concat17 vin hlen⟩

theorem claim_C3_round_trip_witness :
    rec_sample.manufacturer ++ rec_sample.model_series ++ rec_sample.engine_code ++
      rec_sample.model_details ++ rec_sample.model_year ++ rec_sample.plant_code ++
      rec_sample.serial_number = "WDD2050421A123456".toList :=
  (claim_C3_round_trip ("WDD2050421A123456".toList) rec_sample rfl).2

/-- C4: validation reports the error of the first failing check in the fixed
order empty, wrong length, forbidden character, manufacturer code: the first
three failures raise `InvalidVINError` (format errors) with their respective
messages, only a 17-character input free of the forbidden characters can
raise the distinct `UnsupportedVehicleError`, and decode propagates every
validation error unchanged.  In particular a 17-character string containing
I, O or Q fails with a format error even when its manufacturer code is also
unrecognized. -/
theorem claim_C4_validation_order (vin : List Char) :
    (vin = [] → validate_vin vin = .error (.invalidVIN "VIN must be a non-empty string")) ∧
    (vin ≠ [] → vin.length ≠ 17 →
      validate_vin vin = .error (.invalidVIN "VIN must be 17 characters long")) ∧
    (vin.length = 17 → (∃ c ∈ vin, c = 'I' ∨ c = 'O' ∨ c = 'Q') →
      validate_vin vin =
        .error (.invalidVIN "VIN contains invalid characters: I, O, or Q are not allowed")) ∧
    (vin.length = 17 → (∀ c ∈ vin, ¬(c = 'I' ∨ c = 'O' ∨ c = 'Q')) →
      vin.take 3 ∉ MB_MANUFACTURER_CODES →
      validate_vin vin =
        .error (.unsupportedVehicle
          ("Not a recognized Mercedes-Benz VIN: " ++ String.mk (vin.take 3)))) ∧
    (∀ m, validate_vin vin = .error (.unsupportedVehicle m) →
      vin.length = 17 ∧ ∀ c ∈ vin, ¬(c = 'I' ∨ c = 'O' ∨ c = 'Q')) ∧
    (∀ err, validate_vin vin = .error err → decode_vin vin = .error err) := by
  refine ⟨?_, ?_, ?_, ?_, ?_, ?_⟩
  · intro h
    subst h
    rfl
  · intro hne hlen
    have hemp : vin.isEmpty = false := by
      simpa [List.isEmpty_iff] using hne
    simp [validate_vin, hemp, hlen]
  · intro hlen hex
    have hemp : vin.isEmpty = false := by
      rcases vin with _ | _
      · simp at hlen
      · rfl
    have hany : vin.any (fun c => c == 'I' || c == 'O' || c == 'Q') = true := by
      rw [List.any_eq_true]
      obtain ⟨c, hc, hor⟩ := hex
      exact ⟨c, hc, by rcases hor with h | h | h <;> simp [h]⟩
    simp [validate_vin, hemp, hlen, hany]
  · intro hlen hall hmem
    have hemp : vin.isEmpty = false := by
      rcases vin with _ | _
      · simp at hlen
      · rfl
    have hany : vin.any (fun c => c == 'I' || c == 'O' || c == 'Q') = false := by
      rw [Bool.eq_false_iff]
      intro hcon
      rw [List.any_eq_true] at hcon
      obtain ⟨c, hc, hor⟩ := hcon
      exact hall c hc (by simpa [or_assoc] using hor)
    simp [validate_vin, hemp, hlen, hany, hmem]
  · intro m h
    unfold validate_vin at h
    split_ifs at h with h1 h2 h3 h4
    · simp at h
    · simp at h
    · simp at h
    · refine ⟨not_not.mp h2, fun c hc hor => ?_⟩
      have hco : vin.any (fun c => c == 'I' || c == 'O' || c == 'Q') = true := by
        rw [List.any_eq_true]
        refine ⟨c, hc, ?_⟩
        rcases hor with h | h | h <;> simp [h]
      exact h3 hco
  · intro err h
    unfold decode_vin
    rw [h]

theorem claim_C4_validation_order_witness :
    validate_vin [] = .error (.invalidVIN "VIN must be a non-empty string") ∧
    validate_vin ("ABC123".toList) = .error (.invalidVIN "VIN must be 17 characters long") ∧
    validate_vin ("WDD2050421A12345Q".toList) =
      .error (.invalidVIN "VIN contains invalid characters: I, O, or Q are not allowed") ∧
    validate_vin ("1HGCM82633A123456".toList) =
      .error (.unsupportedVehicle
        ("Not a recognized Mercedes-Benz VIN: " ++ String.mk ("1HGCM82633A123456".toList.take 3))) :=
  ⟨(claim_C4_validation_order []).1 rfl,
   (claim_C4_validation_order ("ABC123".toList)).2.1 (by decide) (by decide),
   (claim_C4_validation_order ("WDD2050421A12345Q".toList)).2.2.1 rfl
     ⟨'Q', by decide, by decide⟩,
   (claim_C4_validation_order ("1HGCM82633A123456".toList)).2.2.2.1 rfl
     (by decide) (by decide)⟩

/-- C5: for every VIN that passes validation and whose extracted engine-code
slice has no entry in the engine metadata table, decode succeeds and returns
a record with the engine field absent; no error is raised. -/
theorem claim_C5_decode_missing_engine (vin : List Char)
    (hv : validate_vin vin = .ok true)
    (hmiss : List.lookup (pySlice vin 6 8) ENGINE_CODES = none) :
    ∃ r, decode_vin vin = .ok r ∧ r.engine = none := by
  have hd : decode_vin vin =
      .ok { vin := vin,
            manufacturer := pySlice vin 0 3,
            model_series := pySlice vin 3 6,
            engine_code := pySlice vin 6 8,
            model_details := pySlice vin 8 9,
            model_year := pySlice vin 9 10,
            plant_code := pySlice vin 10 11,
            serial_number := pySlice vin 11 17,
            engine := get_engine_data (pySlice vin 6 8) } := by
    unfold decode_vin
    rw [hv]
  exact ⟨_, hd, hmiss⟩

theorem claim_C5_decode_missing_engine_witness :
    ∃ r, decode_vin ("WDD2050991A123456".toList) = .ok r ∧ r.engine = none :=
  claim_C5_decode_missing_engine ("WDD2050991A123456".toList) rfl rfl

/-- C6: for any tables, engine metadata with a non-empty mapped type and a
resolvable primary, the alternatives of the returned recommendation are
exactly the policy's alternative approval codes that resolve in the
specification table, in the policy's declared order (`filterMap` of the
lookup); unresolvable alternatives are silently skipped and never cause a
failure. -/
theorem claim_C6_alternatives_best_effort (specs : List (String × OilSpecification))
    (mapping : List (String × OilPolicy)) (e : EngineData) (policy : OilPolicy)
    (p : OilSpecification) (hty : e.type ≠ "")
    (hm : List.lookup e.type mapping = some policy)
    (hp : List.lookup policy.primary specs = some p) :
    find_oil_by_engine_core specs mapping (some e) =
      .ok { primary := p,
            alternatives := policy.alternatives.filterMap (fun c => List.lookup c specs) } := by
  simp [find_oil_by_engine_core, hty, hm, hp]

theorem claim_C6_alternatives_best_effort_witness :
    find_oil_by_engine_core [("229.5", spec_229_5)]
        [("T1", { primary := "229.5", alternatives := ["229.9", "229.5"] })]
        (some { code := "00", type := "T1", family := "Diesel", description := "",
                displacement := 0, cylinders := 0, fuel_type := "Diesel" }) =
      .ok { primary := spec_229_5, alternatives := [spec_229_5] } :=
  claim_C6_alternatives_best_effort [("229.5", spec_229_5)]
    [("T1", { primary := "229.5", alternatives := ["229.9", "229.5"] })]
    { code := "00", type := "T1", family := "Diesel", description := "",
      displacement := 0, cylinders := 0, fuel_type := "Diesel" }
    { primary := "229.5", alternatives := ["229.9", "229.5"] }
    spec_229_5 (by decide) rfl rfl

/-- C7: every recommendation returned by `find_oil_by_engine` (on the
concrete class tables) has duplicate-free alternatives that do not contain
the primary specification. -/
theorem claim_C7_alternatives_invariant (e : EngineData) (rec : OilRecommendation)
    (h : find_oil_by_engine (some e) = .ok rec) :
    rec.alternatives.Nodup ∧ rec.primary ∉ rec.alternatives := by
  by_cases h651 : e.type = "OM651"
  · have hfind : find_oil_by_engine (some e) =
        .ok { primary := spec_229_51, alternatives := [spec_229_5, spec_229_3] } := by
      simp only [find_oil_by_engine, find_oil_by_engine_core, h651]
      rfl
    rw [hfind] at h
    obtain rfl : ({ primary := spec_229_51, alternatives := [spec_229_5, spec_229_3] } :
        OilRecommendation) = rec := by
      simpa using h
    decide
  · by_cases h276 : e.type = "M276"
    · have hfind : find_oil_by_engine (some e) =
          .ok { primary := spec_229_5, alternatives := [spec_229_3] } := by
        simp only [find_oil_by_engine, find_oil_by_engine_core, h276]
        rfl
      rw [hfind] at h
      obtain rfl : ({ primary := spec_229_5, alternatives := [spec_229_3] } :
          OilRecommendation) = rec := by
        simpa using h
      decide
    · exfalso
      by_cases hty : e.type = ""
      · simp [find_oil_by_engine, find_oil_by_engine_core, hty] at h
      · have hm : List.lookup e.type ENGINE_OIL_MAPPING = none := by
          rw [lookup_mapping_eq]
          simp [h651, h276]
        simp [find_oil_by_engine, find_oil_by_engine_core, hty, hm] at h

theorem claim_C7_alternatives_invariant_witness :
    rec_om651.alternatives.Nodup ∧ rec_om651.primary ∉ rec_om651.alternatives :=
  claim_C7_alternatives_invariant engine_42 rec_om651 rfl

/-- C8: for every engine metadata of type "OM651", `find_oil_by_engine`
succeeds with primary approval "229.51" and alternatives whose approval codes
are "229.5" then "229.3", in that order. -/
theorem claim_C8_om651 (e : EngineData) (he : e.type = "OM651") :
    ∃ rec, find_oil_by_engine (some e) = .ok rec ∧
      rec.primary.mb_approval = "229.51" ∧
      rec.alternatives.map OilSpecification.mb_approval = ["229.5", "229.3"] := by
  refine ⟨rec_om651, ?_, rfl, rfl⟩
  simp only [find_oil_by_engine, find_oil_by_engine_core, he]
  rfl

theorem claim_C8_om651_witness :
    ∃ rec, find_oil_by_engine (some engine_42) = .ok rec ∧
      rec.primary.mb_approval = "229.51" ∧
      rec.alternatives.map OilSpecification.mb_approval = ["229.5", "229.3"] :=
  claim_C8_om651 engine_42 rfl

/-- C9: validation checks nothing about the character set beyond the three
forbidden characters I, O, Q: every 17-character string without them whose
first three characters are in the manufacturer allow-list decodes
successfully, even if it contains characters outside the VIN alphabet. -/
theorem claim_C9_charset (vin : List Char) (h1 : vin.length = 17)
    (h2 : ∀ c ∈ vin, ¬(c = 'I' ∨ c = 'O' ∨ c = 'Q'))
    (h3 : vin.take 3 ∈ MB_MANUFACTURER_CODES) :
    ∃ r, decode_vin vin = .ok r := by
  have hemp : vin.isEmpty = false := by
    rcases vin with _ | _
    · simp at h1
    · rfl
  have hany : vin.any (fun c => c == 'I' || c == 'O' || c == 'Q') = false := by
    rw [Bool.eq_false_iff]
    intro hcon
    rw [List.any_eq_true] at hcon
    obtain ⟨c, hc, hor⟩ := hcon
    exact h2 c hc (by simpa [or_assoc] using hor)
  have hv : validate_vin vin = .ok true := by
    simp [validate_vin, hemp, h1, hany, h3]
  exact ⟨_, show decode_vin vin =
      .ok { vin := vin,
            manufacturer := pySlice vin 0 3,
            model_series := pySlice vin 3 6,
            engine_code := pySlice vin 6 8,
            model_details := pySlice vin 8 9,
            model_year := pySlice vin 9 10,
            plant_code := pySlice vin 10 11,
            serial_number := pySlice vin 11 17,
            engine := get_engine_data (pySlice vin 6 8) } from by
    unfold decode_vin
    rw [hv]⟩

theorem claim_C9_charset_witness :
    ∃ r, decode_vin ("WDD$abc de1234567".toList) = .ok r :=
  claim_C9_charset ("WDD$abc de1234567".toList) rfl (by decide) (by decide)

/-- C10: `find_oil_by_engine` depends only on the `type` field of the engine
metadata: two metadata values with equal non-empty type but arbitrary other
fields produce identical results (success or failure alike). -/
theorem claim_C10_type_only (e1 e2 : EngineData) (hty : e1.type = e2.type)
    (_hne : e1.type ≠ "") :
    find_oil_by_engine (some e1) = find_oil_by_engine (some e2) := by
  simp only [find_oil_by_engine, find_oil_by_engine_core, hty]

theorem claim_C10_type_only_witness :
    find_oil_by_engine (some engine_42) =
      find_oil_by_engine (some { code := "ZZ", type := "OM651", family := "Gasoline",
                                 description := "entirely different metadata",
                                 displacement := 6, cylinders := 12,
                                 fuel_type := "Petrol" }) :=
  claim_C10_type_only engine_42
    { code := "ZZ", type := "OM651", family := "Gasoline",
      description := "entirely different metadata", displacement := 6, cylinders := 12,
      fuel_type := "Petrol" } rfl (by decide)

end MBOilFinder
